import Mathlib

/-!
Verification development for the Enapter electrolyser maintenance script
(`run_el_maintenance.py`).

The script drives a single electrolyser through a guided maintenance run
(draining, optional flushing, refilling) over a register link.  The shallow
embedding below models:

* the enumerations (`ElectrolyteLevel`, `State`, `RefillingState`,
  `DeviceModel`) with their `_missing_` fallbacks,
* the pure helpers (`_search_top_switch`, `_electrolyte_level` level
  derivation, `_decode_events` / `_format_event` event decoding),
* the stateful orchestration: the device is an oracle (`Dev`) of read
  streams (one stream per register reader, consumed in call order), the
  session state (`MState`) carries the per-stream read counters, a
  wall-clock advanced by the script's `time.sleep` calls, and a log of
  observable actions (register writes, operator prompts, the phase
  banners the script prints).  Python exceptions become the `MErr` error
  component of the result type `MRes`; `try/except/else/finally` blocks
  are modelled by explicit matches on that component.

Floating-point registers (water pressures) are only ever compared with
`<`, never computed with, so they are embedded as integers, which
preserves every comparison the script performs.  Timeouts are wall-clock
deadlines in whole seconds, exactly as in the script.
-/

/-- Timeout (seconds) to complete draining (`DRAINING_TIMEOUT = 300 * 2`). -/
def DRAINING_TIMEOUT : Nat := 300 * 2

/-- Timeout (seconds) to complete refilling (`REFILLING_TIMEOUT = 300`). -/
def REFILLING_TIMEOUT : Nat := 300

/-- Poll interval (seconds) for refilling-state checks. -/
def REFILLING_STATE_CHECK_TIMEOUT : Nat := 5

/-- Poll interval (seconds) for electrolyte presence checks. -/
def ELECTROLYTE_PRESENCE_CHECK_TIMEOUT : Nat := 10

/-- Settle delay (seconds) after every holding-register write. -/
def REGISTER_WRITE_TIMEOUT : Nat := 2

/-- Attempt budget of the water-pipe connection check. -/
def MAX_WATER_PIPE_CONNECT_ATTEMPTS : Nat := 5

/-- `ElectrolyteLevel` — ordinal levels EMPTY=0 .. VERY_HIGH=4. -/
inductive ElectrolyteLevel where
  | empty
  | low
  | medium
  | high
  | veryHigh
deriving DecidableEq, Repr

/-- The `IntEnum` value of an `ElectrolyteLevel` (`.value` in Python). -/
def ElectrolyteLevel.toNat : ElectrolyteLevel → Nat
  | .empty => 0
  | .low => 1
  | .medium => 2
  | .high => 3
  | .veryHigh => 4

/-- `ElectrolyteLevel(n)`.  The script only constructs levels from switch
counts in `0..4`, so values above 4 never occur; they are mapped to
`veryHigh` to keep the function total. -/
def ElectrolyteLevel.ofValue : Nat → ElectrolyteLevel
  | 0 => .empty
  | 1 => .low
  | 2 => .medium
  | 3 => .high
  | _ => .veryHigh

/-- `State` — operating-state input register 1200 (with `_missing_ → UNKNOWN`). -/
inductive OpState where
  | unknown
  | halted
  | maintenanceMode
  | idle
  | steady
  | standBy
  | curve
  | blowdown
  | recombiner
deriving DecidableEq, Repr

/-- Decode a raw word of register 1200 (`State(value)`, `_missing_ → UNKNOWN`). -/
def OpState.ofValue : Nat → OpState
  | 0 => .halted
  | 1 => .maintenanceMode
  | 2 => .idle
  | 3 => .steady
  | 4 => .standBy
  | 5 => .curve
  | 6 => .blowdown
  | 7 => .recombiner
  | _ => .unknown

/-- `RefillingState` — refilling-state input register 1201
(with `_missing_ → UNKNOWN`). -/
inductive RefState where
  | unknown
  | none
  | halt
  | idle
  | filling
  | draining
  | maintenance
  | kohRefilling
  | maintenanceRefilling
  | kohRefillingFinish
  | finalRefilling
  | demandRefilling
  | waitFlushing
  | flushing
  | serviceRefilling
deriving DecidableEq, Repr

/-- Decode a raw word of register 1201 (`RefillingState(value)`,
`_missing_ → UNKNOWN`). -/
def RefState.ofValue : Nat → RefState
  | 0 => .none
  | 1 => .halt
  | 2 => .idle
  | 3 => .filling
  | 4 => .draining
  | 5 => .maintenance
  | 6 => .kohRefilling
  | 7 => .maintenanceRefilling
  | 8 => .kohRefillingFinish
  | 9 => .finalRefilling
  | 10 => .demandRefilling
  | 11 => .waitFlushing
  | 12 => .flushing
  | 13 => .serviceRefilling
  | _ => .unknown

/-- `DeviceModel` — decoded ProjectId register (`_missing_ → UNKNOWN`). -/
inductive DeviceModel where
  | unknown
  | el21
  | el40
  | es40
  | es41
deriving DecidableEq, Repr

/-- `DeviceModel(decoded_device_name)` — `StrEnum` lookup with the
`_missing_ → UNKNOWN` fallback. -/
def deviceModelOfName (s : String) : DeviceModel :=
  if s = "EL21" then .el21
  else if s = "EL40" then .el40
  else if s = "ES40" then .es40
  else if s = "ES41" then .es41
  else .unknown

/-- The four electrolyte level switch readings of one `_electrolyte_level`
call, in the order the script reads them. -/
structure Switches where
  low : Bool
  medium : Bool
  high : Bool
  veryHigh : Bool
deriving DecidableEq, Repr

/-- `_search_top_switch(switches, enabled)` — index (1-based from the
bottom) of the first switch from the top whose value is `enabled`,
`0` when there is none. -/
def searchTopSwitch (switches : List Bool) (enabled : Bool) : Nat :=
  match switches.reverse.findIdx? (fun s => s = enabled) with
  | some index => switches.length - index
  | Option.none => 0

/-- Errors raised by the script.  Python classes:
`highLevel` is `HighElectrolyteLevelException`, `waterPipe` is
`WaterPipeException`, everything else is `MaintenanceModeException`. -/
inductive MErr where
  /-- `_electrolyte_level`: an enabled switch sits above a disabled one;
  the message names the detected level and the top disabled level below. -/
  | hardwareInconsistency (detected topDisabled : ElectrolyteLevel)
  /-- `_maintenance_on` / `_maintenance_off`: `Got state {actual} instead
  of {expected}`. -/
  | stateMismatch (expected actual : OpState)
  /-- `_check_refilling_state`: wrong refilling state detected. -/
  | wrongRefillingState (expected actual : RefState)
  /-- `_check_refilling_warnings`: active refilling warnings found. -/
  | refillingWarnings (active : List String)
  /-- `_wait_electrolyte_level` timeout (the message reports
  `timeout // 60` minutes). -/
  | levelTimeout (expected : ElectrolyteLevel) (timeout : Nat)
  /-- `_wait_refilling_state` timeout (the message reports the timeout in
  seconds). -/
  | refillingStateTimeout (expected : RefState) (timeout : Nat)
  /-- `_wait_electrolyte_level`: higher level than expected while
  refilling (`HighElectrolyteLevelException`). -/
  | highLevel (expected actual : ElectrolyteLevel)
  /-- `_check_water_pipe_connection`: attempt budget exhausted
  (`WaterPipeException`). -/
  | waterPipe (attempts : Nat)
  /-- `_run_maintenance_21` / `_run_maintenance_4x`: unexpected refilling
  state after turning maintenance on. -/
  | unexpectedRefillingState (actual : RefState)
  /-- `_handle_very_high_electrolyte_level` on non-EL21 devices. -/
  | contactSupport
  /-- `_run_maintenance`: unknown device model. -/
  | unknownDeviceModel (name : String)
deriving DecidableEq, Repr

/-- Does the error match `except HighElectrolyteLevelException`? -/
def MErr.isHighLevel : MErr → Bool
  | .highLevel _ _ => true
  | _ => false

/-- Does the error match `except WaterPipeException`? -/
def MErr.isWaterPipe : MErr → Bool
  | .waterPipe _ => true
  | _ => false

deriving instance DecidableEq for Except

/-- `_electrolyte_level`, pure core: derive the level from the four
switches `[low, medium, high, very_high]`, validating that every switch
below the detected top enabled switch is enabled. -/
def electrolyteLevelOfSwitches (sw : Switches) : Except MErr ElectrolyteLevel :=
  let switches : List Bool := [sw.low, sw.medium, sw.high, sw.veryHigh]
  let level : ElectrolyteLevel := ElectrolyteLevel.ofValue (searchTopSwitch switches true)
  let switchesBelowMax : List Bool := switches.take level.toNat
  if switchesBelowMax.all (fun b => b) then
    .ok level
  else
    .error (.hardwareInconsistency level
      (ElectrolyteLevel.ofValue (searchTopSwitch switchesBelowMax false)))

/-- `_format_event(name, value)` — `'{name} ({hex(value)})'`. -/
def formatEvent (name : String) (value : Nat) : String :=
  name ++ " (0x" ++ String.mk (Nat.toDigits 16 value) ++ ")"

/-- Enum-by-value lookup (`event_type(event).name`): the first table entry
with the raw code, or the `_missing_` fallback name `UNKNOWN`. -/
def eventName (table : List (Nat × String)) (code : Nat) : String :=
  match table.find? (fun p => p.1 = code) with
  | some p => p.2
  | Option.none => "UNKNOWN"

/-- `_decode_events`, pure core: the 33 read words are a count followed by
up to 32 raw codes; a zero count yields no events, otherwise the first
`count` codes are formatted through the event table. -/
def decodeEventsList (raw : List Nat) (table : List (Nat × String)) : List String :=
  match raw with
  | [] => []
  | count :: rest =>
    if count = 0 then []
    else (rest.take count).map (fun event => formatEvent (eventName table event) event)

/-- `ElError` — error codes of input register 832 (value, name). -/
def elErrorTable : List (Nat × String) :=
  [ (0x0FFF, "INTERNAL_ERROR"), (0x1F81, "FP_01"), (0x1F82, "FP_02"),
    (0x1F83, "FP_03"), (0x1F86, "FP_06"), (0x108A, "FC_10"),
    (0x1114, "FD_20"), (0x118A, "FR_10"), (0x1194, "FR_20"),
    (0x11B2, "FR_50"), (0x11B3, "FR_51"), (0x11B4, "FR_52"),
    (0x11A8, "FR_40"), (0x1201, "FS_01"), (0x120A, "FS_10"),
    (0x128A, "FT_10"), (0x228A, "ET_10"), (0x230A, "EU_10"),
    (0x1403, "FX_03"), (0x1404, "FX_04"), (0x1407, "FX_07"),
    (0x140B, "FX_11"), (0x140C, "FX_12"), (0x141E, "FX_30"),
    (0x141F, "FX_31"), (0x1421, "FX_33"), (0x1423, "FX_35"),
    (0x1424, "FX_36"), (0x1425, "FX_37"), (0x1426, "FX_38"),
    (0x1427, "FX_39"), (0x148A, "FF_10"), (0x1501, "FL_01"),
    (0x159E, "FO_30"), (0x2401, "EX_01"), (0x1402, "FX_02"),
    (0x1405, "FX_05"), (0x1408, "FX_08"), (0x1409, "FX_09"),
    (0x140A, "FX_10"), (0x1420, "FX_32"), (0x1422, "FX_34"),
    (0x1428, "FX_40"), (0x140D, "FX_13"), (0x142A, "FX_42"),
    (0x170A, "FB_10"), (0x170B, "FB_11"), (0x1714, "FB_20"),
    (0x1715, "FB_21"), (0x178A, "FY_10"), (0x1794, "FY_20"),
    (0x1795, "FY_21"), (0x1796, "FY_22"), (0x1797, "FY_23"),
    (0x1798, "FY_24"), (0x1799, "FY_25"), (0x179A, "FY_26"),
    (0x179B, "FY_27"), (0x179C, "FY_28"), (0x179D, "FY_29"),
    (0x179E, "FY_30"), (0x179F, "FY_31"), (0x1721, "FY_33"),
    (0x17B3, "FY_51"), (0x17B4, "FY_52"), (0x17B5, "FY_53"),
    (0x17B6, "FY_54"), (0x17B7, "FY_55"), (0x17B8, "FY_56") ]

/-- `ElWarning` — warning codes of input register 768 (value, name). -/
def elWarningTable : List (Nat × String) :=
  [ (0x3F84, "WP_04"), (0x3F85, "WP_05"), (0x318A, "WR_10"),
    (0x3194, "WR_20"), (0x3195, "WR_21"), (0x3196, "WR_22"),
    (0x31B3, "WR_51"), (0x31B4, "WR_52"), (0x31B5, "WR_53"),
    (0x3215, "WS_21"), (0x3216, "WS_22"), (0x321E, "WS_30"),
    (0x3294, "WT_20"), (0x330A, "WU_10"), (0x3434, "WX_52"),
    (0x3435, "WX_53"), (0x3437, "WX_55"), (0x343B, "WX_59"),
    (0x343C, "WX_60"), (0x343D, "WX_61"), (0x343E, "WX_62"),
    (0x343F, "WX_63"), (0x3440, "WX_64"), (0x3441, "WX_65"),
    (0x3442, "WX_66"), (0x3443, "WX_67"), (0x3445, "WX_69"),
    (0x350A, "WL_10"), (0x358A, "WO_10"), (0x3594, "WO_20"),
    (0x360A, "WH_10"), (0x360B, "WH_11"), (0x360C, "WH_12"),
    (0x368A, "WZ_10"), (0x3295, "WT_21"), (0x3432, "WX_50"),
    (0x3433, "WX_51"), (0x3436, "WX_54"), (0x3438, "WX_56"),
    (0x3439, "WX_57"), (0x3197, "WR_23"), (0x31B6, "WR_54"),
    (0x340E, "WX_14"), (0x340F, "WX_15"), (0x3446, "WX_70") ]

/-- Phases whose banner the script prints. -/
inductive Phase where
  | draining
  | flushing
  | refilling
deriving DecidableEq, Repr

/-- Observable actions of a maintenance run: holding-register writes
(`_write_single_register`), operator confirmations (`_wait_confirmation`)
and the printed phase banners. -/
inductive Act where
  | write (addr value : Nat)
  | prompt
  | banner (phase : Phase)
deriving DecidableEq, Repr

/-- The device, as an oracle of read streams: entry `k` of a stream is the
value the device reports at the `k`-th call of the corresponding reader.
Pressures are embedded as integers (only compared, never computed with). -/
structure Dev where
  /-- Register 1200 raw words, one per `_actual_state` call. -/
  stateReads : Nat → Nat
  /-- Register 1201 raw words, one per `_actual_refilling_state` call. -/
  refillingReads : Nat → Nat
  /-- The four switch registers, one tuple per `_electrolyte_level` call. -/
  switchReads : Nat → Switches
  /-- Register 7516 (water inlet pressure), one per read. -/
  pressureReads : Nat → Int
  /-- Holding 4400 (min refill water pressure), one per read. -/
  minPressureReads : Nat → Int
  /-- Holding 4402 (max refill water pressure), one per read. -/
  maxPressureReads : Nat → Int
  /-- Holding 4418 (refill mixing time, ms), one per read. -/
  mixingMsReads : Nat → Nat
  /-- Register 768 (warnings, 33 words), one list per decode. -/
  warningsReads : Nat → List Nat
  /-- Register 832 (errors, 33 words), one list per decode. -/
  errorsReads : Nat → List Nat
  /-- The decoded ProjectId device-model name. -/
  modelName : String

/-- Session state: wall clock (seconds), per-stream read counters and the
action log. -/
structure MState where
  time : Nat
  swIdx : Nat
  stIdx : Nat
  rIdx : Nat
  pIdx : Nat
  minIdx : Nat
  maxIdx : Nat
  mixIdx : Nat
  wIdx : Nat
  eIdx : Nat
  log : List Act
deriving DecidableEq, Repr

/-- The state at script start. -/
def initState : MState := ⟨0, 0, 0, 0, 0, 0, 0, 0, 0, 0, []⟩

/-- Result of a stateful step: value or raised error, with the state at
that point (Python keeps all mutations made before a raise). -/
inductive MRes (α : Type) where
  | ok (a : α) (s : MState)
  | err (e : MErr) (s : MState)
deriving DecidableEq, Repr

/-- The session monad: state in, value-or-error plus state out. -/
def M (α : Type) : Type := MState → MRes α

instance : Monad M where
  pure a := fun s => .ok a s
  bind m f := fun s =>
    match m s with
    | .ok a s' => f a s'
    | .err e s' => .err e s'

/-- The state component of a result. -/
def MRes.state : MRes α → MState
  | .ok _ s => s
  | .err _ s => s

/-- The raised error of a result, if any. -/
def MRes.errOf : MRes α → Option MErr
  | .ok _ _ => Option.none
  | .err e _ => some e

/-- The returned value of a result, if any. -/
def MRes.okValue : MRes α → Option α
  | .ok a _ => some a
  | .err _ _ => Option.none

/-- Raise an exception. -/
def throwM (e : MErr) : M α := fun s => .err e s

/-- Record an observable action. -/
def logAction (a : Act) : M Unit := fun s =>
  .ok () { s with log := s.log ++ [a] }

/-- `_wait_confirmation` — prompt until the operator types `YES`; the
reprompt loop has no timeout and ends only with a confirmation, so its
observable effect is one operator checkpoint. -/
def waitConfirmation : M Unit := logAction .prompt

/-- Print one of the three phase banners. -/
def printBanner (p : Phase) : M Unit := logAction (.banner p)

/-- `_write_single_register` — record the write, then sleep
`REGISTER_WRITE_TIMEOUT` seconds. -/
def writeSingleRegister (address value : Nat) : M Unit := fun s =>
  .ok () { s with log := s.log ++ [.write address value],
                  time := s.time + REGISTER_WRITE_TIMEOUT }

/-- `_actual_state` — read and decode register 1200. -/
def actualState (dev : Dev) : M OpState := fun s =>
  .ok (OpState.ofValue (dev.stateReads s.stIdx)) { s with stIdx := s.stIdx + 1 }

/-- `_actual_refilling_state` — read and decode register 1201. -/
def actualRefillingState (dev : Dev) : M RefState := fun s =>
  .ok (RefState.ofValue (dev.refillingReads s.rIdx)) { s with rIdx := s.rIdx + 1 }

/-- `_actual_water_inlet_pressure` — read register 7516. -/
def actualWaterInletPressure (dev : Dev) : M Int := fun s =>
  .ok (dev.pressureReads s.pIdx) { s with pIdx := s.pIdx + 1 }

/-- `_actual_refilling_min_water_pressure` — read holding 4400. -/
def actualRefillingMinWaterPressure (dev : Dev) : M Int := fun s =>
  .ok (dev.minPressureReads s.minIdx) { s with minIdx := s.minIdx + 1 }

/-- `_actual_refilling_max_water_pressure` — read holding 4402. -/
def actualRefillingMaxWaterPressure (dev : Dev) : M Int := fun s =>
  .ok (dev.maxPressureReads s.maxIdx) { s with maxIdx := s.maxIdx + 1 }

/-- `_actual_refilling_mixing_time` — read holding 4418 (ms) and floor-divide
by 1000 to whole seconds. -/
def actualRefillingMixingTime (dev : Dev) : M Nat := fun s =>
  .ok (dev.mixingMsReads s.mixIdx / 1000) { s with mixIdx := s.mixIdx + 1 }

/-- `_electrolyte_level` — read the four switches and derive the level,
raising `hardwareInconsistency` on a monotonicity violation.  The four
register reads happen before the check, so the stream advances either way. -/
def electrolyteLevel (dev : Dev) : M ElectrolyteLevel := fun s =>
  match electrolyteLevelOfSwitches (dev.switchReads s.swIdx) with
  | .ok lvl => .ok lvl { s with swIdx := s.swIdx + 1 }
  | .error e => .err e { s with swIdx := s.swIdx + 1 }

/-- `_decode_warnings` — decode the warnings array register (768). -/
def decodeWarnings (dev : Dev) : M (List String) := fun s =>
  .ok (decodeEventsList (dev.warningsReads s.wIdx) elWarningTable)
    { s with wIdx := s.wIdx + 1 }

/-- `_decode_errors` — decode the errors array register (832). -/
def decodeErrors (dev : Dev) : M (List String) := fun s =>
  .ok (decodeEventsList (dev.errorsReads s.eIdx) elErrorTable)
    { s with eIdx := s.eIdx + 1 }

/-- The four formatted refilling warnings `_check_refilling_warnings`
tests membership against. -/
def refillingWarningTexts : List String :=
  [ formatEvent "WR_10" 0x318A, formatEvent "WR_20" 0x3194,
    formatEvent "WR_21" 0x3195, formatEvent "WR_22" 0x3196 ]

/-- `_check_refilling_warnings` — fail when any active warning is one of
WR_10/WR_20/WR_21/WR_22; other warnings are only reported. -/
def checkRefillingWarnings (dev : Dev) : M Unit := do
  let activeWarnings ← decodeWarnings dev
  if activeWarnings ≠ [] then
    if activeWarnings.any (fun w => w ∈ refillingWarningTexts) then
      throwM (.refillingWarnings activeWarnings)
    else
      pure ()
  else
    pure ()

/-- `_toggle_maintenance` — write 1/0 to holding register 1013. -/
def toggleMaintenance (enable : Bool) : M Unit :=
  writeSingleRegister 1013 (if enable then 1 else 0)

/-- `_toggle_flushing` — write 0/1 to holding register 1015 (the register
means `skip flushing`, so the logic is reversed). -/
def toggleFlushing (enable : Bool) : M Unit :=
  writeSingleRegister 1015 (if enable then 0 else 1)

/-- `_flushing_on`. -/
def flushingOn : M Unit := toggleFlushing true

/-- `_maintenance_on` — when the run started from IDLE, turn maintenance
on and check the state switched to MAINTENANCE_MODE; otherwise it is
already on and nothing happens. -/
def maintenanceOn (dev : Dev) (initialState : OpState) : M Unit :=
  if initialState = .idle then do
    toggleMaintenance true
    let st ← actualState dev
    if st ≠ .maintenanceMode then
      throwM (.stateMismatch .maintenanceMode st)
    else
      pure ()
  else
    pure ()

/-- `_maintenance_off` — turn maintenance off and check the state
switched to IDLE. -/
def maintenanceOff (dev : Dev) : M Unit := do
  toggleMaintenance false
  let st ← actualState dev
  if st ≠ .idle then
    throwM (.stateMismatch .idle st)
  else
    pure ()

/-- `_check_refilling_state` — assert a specific refilling state. -/
def checkRefillingState (dev : Dev) (expected : RefState) : M Unit := do
  let actual ← actualRefillingState dev
  if actual ≠ expected then
    throwM (.wrongRefillingState expected actual)
  else
    pure ()

/-- Poll body of `_wait_electrolyte_level`: while the wall clock is before
the deadline, read the level; stop on the expected level, raise
`highLevel` when refilling and the level exceeds the expectation, else
sleep `ELECTROLYTE_PRESENCE_CHECK_TIMEOUT` and poll again; once past the
deadline raise `levelTimeout`.  `t` mirrors `s.time`; the structural fuel
counts remaining iterations and is initialised to the timeout, an upper
bound on the iteration count (each iteration advances the clock by at
least one second), so fuel exhaustion can only happen once the deadline
has already passed and then coincides with the deadline result. -/
def waitLevelLoop (dev : Dev) (expected : ElectrolyteLevel) (timeout : Nat)
    (refilling : Bool) (untilT : Nat) (fuel : Nat) : Nat → MState → MRes Unit :=
  Nat.rec (motive := fun _ => Nat → MState → MRes Unit)
    (fun _ s => .err (.levelTimeout expected timeout) s)
    (fun _ continue0 t s =>
      if t < untilT then
        match electrolyteLevel dev s with
        | .err e s1 => .err e s1
        | .ok lvl s1 =>
          if lvl = expected then
            .ok () s1
          else if refilling ∧ expected.toNat < lvl.toNat then
            .err (.highLevel expected lvl) s1
          else
            continue0 (t + ELECTROLYTE_PRESENCE_CHECK_TIMEOUT)
              { s1 with time := t + ELECTROLYTE_PRESENCE_CHECK_TIMEOUT }
      else
        .err (.levelTimeout expected timeout) s)
    fuel

/-- `_wait_electrolyte_level(expected, timeout, refilling)` — bounded
polling for a level, deadline `time.time() + timeout`. -/
def waitElectrolyteLevel (dev : Dev) (expected : ElectrolyteLevel)
    (timeout : Nat) (refilling : Bool) : M Unit := fun s =>
  waitLevelLoop dev expected timeout refilling (s.time + timeout) timeout s.time s

/-- Poll body of `_wait_refilling_state`, interval
`REFILLING_STATE_CHECK_TIMEOUT`; fuel as in `waitLevelLoop`. -/
def waitRefStateLoop (dev : Dev) (expected : RefState) (timeout : Nat)
    (untilT : Nat) (fuel : Nat) : Nat → MState → MRes Unit :=
  Nat.rec (motive := fun _ => Nat → MState → MRes Unit)
    (fun _ s => .err (.refillingStateTimeout expected timeout) s)
    (fun _ continue0 t s =>
      if t < untilT then
        match actualRefillingState dev s with
        | .err e s1 => .err e s1
        | .ok rs s1 =>
          if rs = expected then
            .ok () s1
          else
            continue0 (t + REFILLING_STATE_CHECK_TIMEOUT)
              { s1 with time := t + REFILLING_STATE_CHECK_TIMEOUT }
      else
        .err (.refillingStateTimeout expected timeout) s)
    fuel

/-- `_wait_refilling_state(expected, timeout)`. -/
def waitRefillingState (dev : Dev) (expected : RefState) (timeout : Nat) :
    M Unit := fun s =>
  waitRefStateLoop dev expected timeout (s.time + timeout) timeout s.time s

/-- `_handle_very_high_electrolyte_level` — when the level is VERY_HIGH:
EL21 operators drain manually to HIGH (checkpoint + wait), other families
fail; when it is not VERY_HIGH nothing happens. -/
def handleVeryHighElectrolyteLevel (dev : Dev) (el21 : Bool) : M Unit := do
  let lvl ← electrolyteLevel dev
  if lvl = .veryHigh then
    if el21 then do
      waitConfirmation
      waitElectrolyteLevel dev .high REFILLING_TIMEOUT false
    else
      throwM .contactSupport
  else
    pure ()

/-- `_perform_draining` — assert DRAINING, banner, checkpoint, wait for
EMPTY within `DRAINING_TIMEOUT`. -/
def performDraining (dev : Dev) : M Unit := do
  checkRefillingState dev .draining
  printBanner .draining
  waitConfirmation
  waitElectrolyteLevel dev .empty DRAINING_TIMEOUT false

/-- One attempt's electrolyte part of `_check_water_pipe_connection`:
when no electrolyte is expected, an EMPTY reading passes the check; any
other level triggers a full inline draining sub-phase (plus a
WAIT_FLUSHING assertion) and leaves the flag as it was.  When electrolyte
is not checked the flag is simply set. -/
def pipeAttemptElectrolyte (dev : Dev) (expectNoElectrolyte : Bool)
    (electrolyteOk : Bool) : M Bool := do
  if expectNoElectrolyte then do
    let lvl ← electrolyteLevel dev
    if lvl = .empty then
      pure true
    else do
      performDraining dev
      checkRefillingState dev .waitFlushing
      pure electrolyteOk
  else
    pure true

/-- Attempt loop of `_check_water_pipe_connection`, recursing on the
number of remaining attempts (`attempts - count` in the script, with
`attempts` kept for the error message): each attempt reads the pressure
(recording success in a sticky flag: a flag once set stays set across
attempts) and optionally the electrolyte level; when both flags hold the
loop breaks, otherwise the operator confirms a retry; with no attempt
left it raises `waterPipe`. -/
def pipeLoop (dev : Dev) (expectNoElectrolyte : Bool) (attempts : Nat)
    (minPressure maxPressure : Int) (remaining : Nat) : Bool → Bool → M Unit :=
  Nat.rec (motive := fun _ => Bool → Bool → M Unit)
    (fun _ _ => throwM (.waterPipe attempts))
    (fun _ continue0 pressureOk electrolyteOk => do
      let p ← actualWaterInletPressure dev
      let pressureOk2 :=
        if minPressure < p ∧ p < maxPressure then true else pressureOk
      let electrolyteOk2 ← pipeAttemptElectrolyte dev expectNoElectrolyte electrolyteOk
      if pressureOk2 ∧ electrolyteOk2 then
        pure ()
      else do
        waitConfirmation
        continue0 pressureOk2 electrolyteOk2)
    remaining

/-- `_check_water_pipe_connection(expect_no_electrolyte, attempts)` —
read the configured pressure bounds once, then run the attempt loop with
all `attempts` attempts remaining and both flags initially unset. -/
def checkWaterPipeConnection (dev : Dev) (expectNoElectrolyte : Bool)
    (attempts : Nat) : M Unit := do
  let minPressure ← actualRefillingMinWaterPressure dev
  let maxPressure ← actualRefillingMaxWaterPressure dev
  pipeLoop dev expectNoElectrolyte attempts minPressure maxPressure attempts false false

/-- `_perform_flushing` — banner, assert WAIT_FLUSHING, checkpoint,
full water-pipe check (no electrolyte expected), checkpoint, flushing on,
wait for HIGH while refilling, warnings check, then wait for the device
to settle into DRAINING within twice the mixing time, and drain again. -/
def performFlushing (dev : Dev) : M Unit := do
  printBanner .flushing
  checkRefillingState dev .waitFlushing
  waitConfirmation
  checkWaterPipeConnection dev true MAX_WATER_PIPE_CONNECT_ATTEMPTS
  waitConfirmation
  flushingOn
  waitElectrolyteLevel dev .high REFILLING_TIMEOUT true
  checkRefillingWarnings dev
  let mixingTime ← actualRefillingMixingTime dev
  waitRefillingState dev .draining (mixingTime * 2)
  performDraining dev

/-- The `finally` clause of `_perform_refilling`'s first stage:
`if el_21 and _electrolyte_level().value < HIGH: check(KOH_REFILLING)`
(short-circuit: no read at all unless EL21). -/
def refillFinallyClause (dev : Dev) (el21 : Bool) : M Unit := do
  if el21 then do
    let lvl ← electrolyteLevel dev
    if lvl.toNat < ElectrolyteLevel.high.toNat then
      checkRefillingState dev .kohRefilling
    else
      pure ()
  else
    pure ()

/-- First fill stage of `_perform_refilling`:
`try: wait(LOW, refilling) / except High: handle very-high /
else: check(KOH_REFILLING) / finally: refillFinallyClause`.
The handler and else results survive the finally clause unless the
finally clause itself raises. -/
def refillFirstStage (dev : Dev) (el21 : Bool) : M Unit := fun s =>
  let tryRes := waitElectrolyteLevel dev .low REFILLING_TIMEOUT true s
  let handled : MRes Unit :=
    match tryRes with
    | .ok _ s1 => checkRefillingState dev .kohRefilling s1
    | .err e s1 =>
      if e.isHighLevel then handleVeryHighElectrolyteLevel dev el21 s1
      else .err e s1
  match refillFinallyClause dev el21 handled.state with
  | .err e s2 => .err e s2
  | .ok _ s2 =>
    match handled with
    | .ok _ _ => .ok () s2
    | .err e _ => .err e s2

/-- `try body / except HighElectrolyteLevelException: handler`. -/
def tryCatchHighLevel (body handler : M Unit) : M Unit := fun s =>
  match body s with
  | .err e s1 => if e.isHighLevel then handler s1 else .err e s1
  | r => r

/-- `_perform_refilling(el_21)` — assert MAINTENANCE, banner, target
HIGH (EL21) or MEDIUM (EL4x), checkpoint, first fill stage to LOW, then
top off to the target when the level is still below it, and assert
KOH_REFILLING_FINISH. -/
def performRefilling (dev : Dev) (el21 : Bool) : M Unit := do
  checkRefillingState dev .maintenance
  printBanner .refilling
  let refillToLevel := if el21 then ElectrolyteLevel.high else ElectrolyteLevel.medium
  waitConfirmation
  refillFirstStage dev el21
  let lvl ← electrolyteLevel dev
  if lvl.toNat < refillToLevel.toNat then do
    waitConfirmation
    tryCatchHighLevel
      (waitElectrolyteLevel dev refillToLevel REFILLING_TIMEOUT true)
      (handleVeryHighElectrolyteLevel dev el21)
  else
    pure ()
  checkRefillingState dev .kohRefillingFinish

/-- `_finish_refilling` — assert SERVICE_REFILLING, wait for HIGH while
refilling, wait for IDLE within twice the mixing time, warnings check,
assert IDLE. -/
def finishRefilling (dev : Dev) : M Unit := do
  checkRefillingState dev .serviceRefilling
  waitElectrolyteLevel dev .high REFILLING_TIMEOUT true
  let mixingTime ← actualRefillingMixingTime dev
  waitRefillingState dev .idle (mixingTime * 2)
  checkRefillingWarnings dev
  checkRefillingState dev .idle

/-- `_run_maintenance_21(initial_state)` — maintenance on, branch on the
refilling state (DRAINING → drain first, MAINTENANCE → first fill, skip
draining, anything else → fail), refill targeting HIGH, warnings check,
maintenance off, assert refilling IDLE. -/
def runMaintenance21 (dev : Dev) (initialState : OpState) : M Unit := do
  maintenanceOn dev initialState
  let actualRefilling ← actualRefillingState dev
  let drainingRequired ← (match actualRefilling with
    | .draining => pure true
    | .maintenance => pure false
    | other => throwM (.unexpectedRefillingState other) : M Bool)
  if drainingRequired then performDraining dev else pure ()
  performRefilling dev true
  checkRefillingWarnings dev
  maintenanceOff dev
  checkRefillingState dev .idle

/-- Final stage of `_run_maintenance_4x`:
`try: check_water_pipe_connection(attempts=1) / except WaterPipeException:
warn / else: finish_refilling` — a pipe fault here is downgraded to a
console warning and finish-refilling is skipped. -/
def finalPipeStage (dev : Dev) : M Unit := fun s =>
  match checkWaterPipeConnection dev false 1 s with
  | .err e s1 => if e.isWaterPipe then .ok () s1 else .err e s1
  | .ok _ s1 => finishRefilling dev s1

/-- `_run_maintenance_4x(initial_state)` — maintenance on, branch on the
refilling state (DRAINING → drain and flush, WAIT_FLUSHING → flush only,
MAINTENANCE → first fill, skip both, anything else → fail); after the
draining decision a fresh read reporting MAINTENANCE cancels flushing
(script interrupted after a completed flush); then refill (EL4x target),
checkpoint, maintenance off, and the final single-attempt pipe stage. -/
def runMaintenance4x (dev : Dev) (initialState : OpState) : M Unit := do
  maintenanceOn dev initialState
  let actualRefilling ← actualRefillingState dev
  let flags ← (match actualRefilling with
    | .draining => pure (true, true)
    | .waitFlushing => pure (false, true)
    | .maintenance => pure (false, false)
    | other => throwM (.unexpectedRefillingState other) : M (Bool × Bool))
  if flags.1 then performDraining dev else pure ()
  let recheck ← actualRefillingState dev
  let flushingRequired := if recheck = .maintenance then false else flags.2
  if flushingRequired then performFlushing dev else pure ()
  performRefilling dev false
  waitConfirmation
  maintenanceOff dev
  finalPipeStage dev

/-- `_run_maintenance` — decode the device model and dispatch to the EL21
or EL4x sequence; unknown models fail. -/
def runMaintenance (dev : Dev) (initialState : OpState) : M Unit :=
  match deviceModelOfName dev.modelName with
  | .el21 => runMaintenance21 dev initialState
  | .el40 => runMaintenance4x dev initialState
  | .es40 => runMaintenance4x dev initialState
  | .es41 => runMaintenance4x dev initialState
  | .unknown => throwM (.unknownDeviceModel dev.modelName)

/-- Reasons for `main`'s clean `sys.exit` before any phase. -/
inductive ExitReason where
  | veryHighLevel
  | wrongState (st : OpState)
deriving DecidableEq, Repr

/-- Outcome of `main`'s guarded block: a clean pre-flight exit, normal
completion, or a propagated error with the diagnostics texts printed
by the `except Exception` handler. -/
inductive MainOutcome where
  | cleanExit (reason : ExitReason)
  | completed
  | failed (e : MErr) (activeErrors activeWarnings : String)
deriving DecidableEq, Repr

/-- The `try` block of `main`: the pre-flight gate (clean exit when the
level is already VERY_HIGH or the state is neither IDLE nor
MAINTENANCE_MODE — `sys.exit` raises `SystemExit`, which the
`except Exception` handler does not catch), then the maintenance run
with the gate's state as initial state. -/
def mainTry (dev : Dev) : M (Option ExitReason) := fun s =>
  match electrolyteLevel dev s with
  | .err e s1 => .err e s1
  | .ok lvl s1 =>
    if lvl = .veryHigh then
      .ok (some .veryHighLevel) s1
    else
      match actualState dev s1 with
      | .err e s2 => .err e s2
      | .ok st s2 =>
        if st ≠ .idle ∧ st ≠ .maintenanceMode then
          .ok (some (.wrongState st)) s2
        else
          match runMaintenance dev st s2 with
          | .ok _ s3 => .ok Option.none s3
          | .err e s3 => .err e s3

/-- `', '.join(events) or fallback` of the diagnostics block. -/
def joinedEvents (events : List String) (fallback : String) : String :=
  if events = [] then fallback else String.intercalate ", " events

/-- The guarded body of `main`: on any error from the try block the
handler decodes the live error and warning arrays, reports them, and
re-raises the original error. -/
def mainBody (dev : Dev) : M MainOutcome := fun s =>
  match mainTry dev s with
  | .ok (some reason) s1 => .ok (.cleanExit reason) s1
  | .ok Option.none s1 => .ok .completed s1
  | .err e s1 =>
    match decodeErrors dev s1 with
    | .err e2 s2 => .err e2 s2
    | .ok errorEvents s2 =>
      match decodeWarnings dev s2 with
      | .err e2 s3 => .err e2 s3
      | .ok warningEvents s3 =>
        .ok (.failed e (joinedEvents errorEvents "No errors")
              (joinedEvents warningEvents "No warnings")) s3

/-- Switch tuple reported by a healthy sensor at a given level. -/
def switchesOfLevel : ElectrolyteLevel → Switches
  | .empty => ⟨false, false, false, false⟩
  | .low => ⟨true, false, false, false⟩
  | .medium => ⟨true, true, false, false⟩
  | .high => ⟨true, true, true, false⟩
  | .veryHigh => ⟨true, true, true, true⟩

/-- An events register read with zero count (and 32 zero codes). -/
def zeros33 : List Nat := List.replicate 33 0

/-- A quiet EL40 device: always IDLE, refilling IDLE, empty vessel,
in-bounds pressure 2 within configured bounds (1, 4), 20 s mixing time,
no events.  Scenario devices below override individual streams. -/
def baseDev : Dev where
  stateReads := fun _ => 2
  refillingReads := fun _ => 2
  switchReads := fun _ => switchesOfLevel .empty
  pressureReads := fun _ => 2
  minPressureReads := fun _ => 1
  maxPressureReads := fun _ => 4
  mixingMsReads := fun _ => 20000
  warningsReads := fun _ => zeros33
  errorsReads := fun _ => zeros33
  modelName := "EL40"

/-- Level stream shorthand: the `k`-th `_electrolyte_level` call sees the
`k`-th level of the list (then `dflt` forever). -/
def levelStream (levels : List ElectrolyteLevel) (dflt : ElectrolyteLevel) :
    Nat → Switches :=
  fun k => switchesOfLevel (levels.getD k dflt)

/-- EL40 end-to-end scenario: initial state IDLE, initial refilling state
DRAINING, flushing required and performed (devC7). -/
def devC7 : Dev :=
  { baseDev with
    stateReads := fun k => if k = 0 then 1 else 2
    refillingReads := fun k => [4, 4, 11, 11, 12, 4, 4, 5, 6, 8, 13, 2, 2].getD k 2
    switchReads := levelStream
      [.low, .empty, .empty, .medium, .high, .low, .empty, .empty, .low, .low,
       .medium, .high] .empty }

/-- devC7 with a device that never settles into DRAINING after the
flushing fill: the post-mixing wait must time out. -/
def devC7stall : Dev :=
  { devC7 with refillingReads := fun k => [4, 4, 11, 11].getD k 12 }

/-- EL40 run with initial refilling state DRAINING whose post-draining
re-read reports MAINTENANCE: flushing is skipped, yet the run completes. -/
def devC7skip : Dev :=
  { baseDev with
    stateReads := fun k => if k = 0 then 1 else 2
    refillingReads := fun k => [4, 4, 5, 5, 6, 8, 13, 2, 2].getD k 2
    switchReads := levelStream [.low, .empty, .low, .medium, .high] .empty }

/-- EL4x run (gate passed in MAINTENANCE_MODE) whose final single-attempt
water-pipe check fails: pressure 10 outside (1, 4). -/
def devC2 : Dev :=
  { baseDev with
    stateReads := fun k => if k = 0 then 1 else 2
    refillingReads := fun k => [5, 5, 5, 6, 8].getD k 2
    switchReads := levelStream [.empty, .low, .medium] .empty
    pressureReads := fun _ => 10 }

/-- EL40 run whose flushing-phase water-pipe check exhausts all 5
attempts; one active error FP_01 for the diagnostics block. -/
def devC2prop : Dev :=
  { baseDev with
    stateReads := fun k => if k = 0 then 2 else 1
    refillingReads := fun k => [4, 4, 11, 11].getD k 11
    switchReads := levelStream [.empty, .empty] .empty
    pressureReads := fun _ => 10
    errorsReads := fun _ => 1 :: 0x1F81 :: List.replicate 31 0 }

/-- EL21 first-fill scenario: initial state IDLE, refilling state
MAINTENANCE, levels EMPTY → LOW → … → HIGH (devC8). -/
def devC8 : Dev :=
  { baseDev with
    modelName := "EL21"
    stateReads := fun k => if k = 0 then 1 else 2
    refillingReads := fun k => [5, 5, 6, 6, 8, 2].getD k 2
    switchReads := levelStream [.empty, .low, .low, .low, .medium, .high] .empty }

/-- devC8 with a vessel that never reaches HIGH: the top-off wait for
HIGH must time out. -/
def devC8stall : Dev :=
  { devC8 with
    switchReads := levelStream [.empty, .low, .low, .low] .medium }

/-- devC8 with a device that never reports KOH_REFILLING_FINISH. -/
def devC8wrong : Dev :=
  { devC8 with refillingReads := fun k => [5, 5, 6, 6, 6, 2].getD k 2 }

/-- devC8 with a device whose final refilling state is not IDLE. -/
def devC8badIdle : Dev :=
  { devC8 with refillingReads := fun k => [5, 5, 6, 6, 8, 5].getD k 2 }

/-- EL40 run: initial refilling DRAINING, post-draining re-read
MAINTENANCE — flushing must be skipped entirely (devC10). -/
def devC10 : Dev :=
  { baseDev with
    stateReads := fun k => if k = 0 then 1 else 2
    refillingReads := fun k => [4, 4, 5, 5, 6, 8, 13, 2, 2].getD k 2
    switchReads := levelStream [.low, .empty, .low, .medium, .high] .empty }

/-- Pipe-check counterexample device: measured pressure exactly equal to
the configured minimum (2 within bounds [2, 5)). -/
def devC3ctr : Dev :=
  { baseDev with
    pressureReads := fun _ => 2
    minPressureReads := fun _ => 2
    maxPressureReads := fun _ => 5 }

/-- Pipe-check scenario: attempt 0 has good pressure but electrolyte
present (inline draining), attempt 1 has out-of-bounds pressure but an
empty vessel — the sticky flags make attempt 1 succeed. -/
def devC3sticky : Dev :=
  { baseDev with
    refillingReads := fun k => [4, 11].getD k 2
    switchReads := levelStream [.low, .empty, .empty] .empty
    pressureReads := fun k => if k = 0 then 2 else 100 }

/-- Sensor that always reports MEDIUM (for the timeout witness). -/
def devC6 : Dev :=
  { baseDev with switchReads := fun _ => switchesOfLevel .medium }

/-- Sensor sequence EMPTY, MEDIUM, … (for the overshoot witness). -/
def devC5 : Dev :=
  { baseDev with switchReads := levelStream [.empty] .medium }

/-- Pre-flight witness device: the very first level read is VERY_HIGH. -/
def devC9very : Dev :=
  { baseDev with switchReads := fun _ => switchesOfLevel .veryHigh }

/-- Pre-flight witness device: level fine but the state is STEADY. -/
def devC9steady : Dev :=
  { baseDev with stateReads := fun _ => 3 }

/-! ## Specification-side definitions (from the spec's words, for
comparison with the embedded code) -/

/-- Spec: the enabled switches form a contiguous bottom run. -/
def contiguousBottomRun (sw : Switches) : Prop :=
  (sw.medium → sw.low) ∧ (sw.high → sw.medium) ∧ (sw.veryHigh → sw.high)

instance : DecidablePred contiguousBottomRun := fun sw => by
  unfold contiguousBottomRun; infer_instance

/-- Spec: ordinal of the highest enabled switch (0 when none is enabled). -/
def specHighestEnabled (sw : Switches) : Nat :=
  if sw.veryHigh then 4
  else if sw.high then 3
  else if sw.medium then 2
  else if sw.low then 1
  else 0

/-- The switch at ordinal 1..4 (LOW..VERY_HIGH). -/
def switchAt (sw : Switches) : Nat → Bool
  | 1 => sw.low
  | 2 => sw.medium
  | 3 => sw.high
  | 4 => sw.veryHigh
  | _ => false

/-- Ordinals of the disabled switches strictly below `level`. -/
def disabledBelow (sw : Switches) (level : Nat) : List Nat :=
  (List.range' 1 4).filter (fun i => decide (i < level) && !(switchAt sw i))

/-- Spec: ordinal of the lowest disabled switch below the detected level. -/
def specLowestDisabledBelow (sw : Switches) (level : Nat) : Nat :=
  (disabledBelow sw level).headD 0

/-- Ordinal of the topmost disabled switch below the detected level (what
`_search_top_switch(…, enabled=False)` reports). -/
def specTopDisabledBelow (sw : Switches) (level : Nat) : Nat :=
  (disabledBelow sw level).getLastD 0

/-- The session state of the devC2 run just before the final pipe stage
(immediately after maintenance off), obtained by running the prefix. -/
def sC2mid : MState := ⟨2, 3, 2, 5, 0, 0, 0, 0, 0, 0,
  [Act.banner Phase.refilling, Act.prompt, Act.prompt, Act.write 1013 0]⟩

/-- The state after the failed single-attempt pipe check from `sC2mid`. -/
def sC2after : MState := ⟨2, 3, 2, 5, 1, 1, 1, 0, 0, 0,
  [Act.banner Phase.refilling, Act.prompt, Act.prompt, Act.write 1013 0,
   Act.prompt]⟩

/-- Action log of the devC7 EL40 end-to-end run. -/
def c7log : List Act :=
  [Act.write 1013 1, Act.banner Phase.draining, Act.prompt,
   Act.banner Phase.flushing, Act.prompt, Act.prompt, Act.write 1015 0,
   Act.banner Phase.draining, Act.prompt, Act.banner Phase.refilling,
   Act.prompt, Act.prompt, Act.prompt, Act.write 1013 0]

/-- Action log of the devC7skip run (flushing skipped). -/
def c7skipLog : List Act :=
  [Act.write 1013 1, Act.banner Phase.draining, Act.prompt,
   Act.banner Phase.refilling, Act.prompt, Act.prompt, Act.write 1013 0]

/-- Action log of the devC8 EL21 first-fill run. -/
def c8log : List Act :=
  [Act.write 1013 1, Act.banner Phase.refilling, Act.prompt, Act.prompt,
   Act.write 1013 0]

/-- devC8 with a device that is not IDLE after maintenance off. -/
def devC8badState : Dev :=
  { devC8 with stateReads := fun k => if k = 0 then 1 else 3 }

/-- Action log of the devC10 run (flushing skipped). -/
def c10log : List Act :=
  [Act.write 1013 1, Act.banner Phase.draining, Act.prompt,
   Act.banner Phase.refilling, Act.prompt, Act.prompt, Act.write 1013 0]

/-- devC10 intermediate state: after maintenance on. -/
def sC10a : MState := ⟨2, 0, 1, 0, 0, 0, 0, 0, 0, 0, [Act.write 1013 1]⟩

/-- devC10 intermediate state: after the initial refilling-state read. -/
def sC10b : MState := ⟨2, 0, 1, 1, 0, 0, 0, 0, 0, 0, [Act.write 1013 1]⟩

/-- devC10 intermediate state: after the draining phase. -/
def sC10c : MState := ⟨12, 2, 1, 2, 0, 0, 0, 0, 0, 0,
  [Act.write 1013 1, Act.banner Phase.draining, Act.prompt]⟩

/-- devC10 intermediate state: after the post-draining re-read. -/
def sC10d : MState := ⟨12, 2, 1, 3, 0, 0, 0, 0, 0, 0,
  [Act.write 1013 1, Act.banner Phase.draining, Act.prompt]⟩

/-- EL40 run whose initial refilling state is WAIT_FLUSHING but whose
post-decision re-read reports MAINTENANCE: flushing must be skipped. -/
def devC10wf : Dev :=
  { baseDev with
    stateReads := fun k => if k = 0 then 1 else 2
    refillingReads := fun k => [11, 5, 5, 6, 8, 13, 2, 2].getD k 2
    switchReads := levelStream [.low, .medium, .high] .empty }

/-- Action log of the devC10wf run (flushing skipped, no draining). -/
def c10wfLog : List Act :=
  [Act.write 1013 1, Act.banner Phase.refilling, Act.prompt, Act.prompt,
   Act.write 1013 0]

/-- devC10wf intermediate state: after maintenance on. -/
def sC10wfA : MState := ⟨2, 0, 1, 0, 0, 0, 0, 0, 0, 0, [Act.write 1013 1]⟩

/-- devC10wf intermediate state: after the initial WAIT_FLUSHING read. -/
def sC10wfB : MState := ⟨2, 0, 1, 1, 0, 0, 0, 0, 0, 0, [Act.write 1013 1]⟩

/-- devC10wf intermediate state: after the post-decision re-read. -/
def sC10wfD : MState := ⟨2, 0, 1, 2, 0, 0, 0, 0, 0, 0, [Act.write 1013 1]⟩

/-- EL4x run (gate passed in MAINTENANCE_MODE, first fill) in which the
wait for LOW observes MEDIUM at its very first poll: the refilling
overshoot fires and is handled locally (the handler re-reads MEDIUM,
which is not VERY_HIGH, and returns), and the run still completes. -/
def devC2high : Dev :=
  { baseDev with
    refillingReads := fun k => [5, 5, 5, 8, 13, 2, 2].getD k 2
    switchReads := levelStream [.medium, .medium, .medium, .high] .empty }

/-- devC2high state at entry of the first refilling fill stage. -/
def sC2high : MState := ⟨0, 0, 0, 3, 0, 0, 0, 0, 0, 0,
  [Act.banner Phase.refilling, Act.prompt]⟩

/-- devC2high state at which the overshoot is raised (one level read). -/
def sC2highE : MState := ⟨0, 1, 0, 3, 0, 0, 0, 0, 0, 0,
  [Act.banner Phase.refilling, Act.prompt]⟩

/-- devC2high state after the overshoot handler (one more level read). -/
def sC2highH : MState := ⟨0, 2, 0, 3, 0, 0, 0, 0, 0, 0,
  [Act.banner Phase.refilling, Act.prompt]⟩

/-- A device whose level switches report a hardware fault (only HIGH
enabled): the level wait raises a non-overshoot error at once. -/
def devC2bad : Dev :=
  { baseDev with switchReads := fun _ => ⟨false, false, true, false⟩ }

/-- A device whose level switches always report VERY_HIGH. -/
def devC2vh : Dev :=
  { baseDev with switchReads := fun _ => switchesOfLevel .veryHigh }


/-- One unfolding of `waitLevelLoop` with fuel left. -/
theorem waitLevelLoop_succ (dev : Dev) (expected : ElectrolyteLevel)
    (timeout : Nat) (refilling : Bool) (untilT fuel t : Nat) (s : MState) :
    waitLevelLoop dev expected timeout refilling untilT (fuel + 1) t s =
      (if t < untilT then
        match electrolyteLevel dev s with
        | .err e s1 => .err e s1
        | .ok lvl s1 =>
          if lvl = expected then
            .ok () s1
          else if refilling ∧ expected.toNat < lvl.toNat then
            .err (.highLevel expected lvl) s1
          else
            waitLevelLoop dev expected timeout refilling untilT fuel
              (t + ELECTROLYTE_PRESENCE_CHECK_TIMEOUT)
              { s1 with time := t + ELECTROLYTE_PRESENCE_CHECK_TIMEOUT }
      else
        .err (.levelTimeout expected timeout) s) := rfl

/-- One unfolding of `pipeLoop` with an attempt left. -/
theorem pipeLoop_succ (dev : Dev) (expectNoElectrolyte : Bool)
    (attempts : Nat) (minPressure maxPressure : Int) (remaining : Nat)
    (pressureOk electrolyteOk : Bool) :
    pipeLoop dev expectNoElectrolyte attempts minPressure maxPressure
        (remaining + 1) pressureOk electrolyteOk =
      (do
        let p ← actualWaterInletPressure dev
        let pressureOk2 :=
          if minPressure < p ∧ p < maxPressure then true else pressureOk
        let electrolyteOk2 ← pipeAttemptElectrolyte dev expectNoElectrolyte electrolyteOk
        if pressureOk2 ∧ electrolyteOk2 then
          pure ()
        else do
          waitConfirmation
          pipeLoop dev expectNoElectrolyte attempts minPressure maxPressure
            remaining pressureOk2 electrolyteOk2) := rfl

/-! ## C1 — electrolyte level derivation -/

/-- C1 (amended): for every reading of the four switches, a contiguous
bottom run yields exactly the ordinal of the highest enabled switch
(EMPTY when none); any gap raises `hardwareInconsistency`
(a `MaintenanceModeException`), never a silently clamped level, and the
error names the detected level together with the **topmost** disabled
switch below it. -/
theorem c1_level_amended :
    ∀ l m h v : Bool,
      (contiguousBottomRun ⟨l, m, h, v⟩ →
        electrolyteLevelOfSwitches ⟨l, m, h, v⟩ =
          .ok (ElectrolyteLevel.ofValue (specHighestEnabled ⟨l, m, h, v⟩))) ∧
      (¬ contiguousBottomRun ⟨l, m, h, v⟩ →
        electrolyteLevelOfSwitches ⟨l, m, h, v⟩ =
          .error (.hardwareInconsistency
            (ElectrolyteLevel.ofValue (specHighestEnabled ⟨l, m, h, v⟩))
            (ElectrolyteLevel.ofValue
              (specTopDisabledBelow ⟨l, m, h, v⟩ (specHighestEnabled ⟨l, m, h, v⟩))))) := by
  decide

/-- C1 witness: a contiguous run (LOW+MEDIUM) decodes to MEDIUM, and the
gapped reading (only HIGH enabled) raises the hardware fault. -/
theorem c1_level_amended_witness :
    electrolyteLevelOfSwitches ⟨true, true, false, false⟩ =
      .ok (ElectrolyteLevel.ofValue (specHighestEnabled ⟨true, true, false, false⟩)) ∧
    electrolyteLevelOfSwitches ⟨false, false, true, false⟩ =
      .error (.hardwareInconsistency
        (ElectrolyteLevel.ofValue (specHighestEnabled ⟨false, false, true, false⟩))
        (ElectrolyteLevel.ofValue
          (specTopDisabledBelow ⟨false, false, true, false⟩
            (specHighestEnabled ⟨false, false, true, false⟩)))) :=
  ⟨(c1_level_amended true true false false).1 (by decide),
   (c1_level_amended false false true false).2 (by decide)⟩

/-- C1 counterexample: with only the HIGH switch enabled, the raised
error names MEDIUM (the topmost disabled switch below HIGH), while the
lowest disabled switch below HIGH is ordinal 1 (LOW) — so the message
does not name the lowest disabled switch, contrary to the claim. -/
theorem c1_level_counterexample :
    electrolyteLevelOfSwitches ⟨false, false, true, false⟩ =
      .error (.hardwareInconsistency .high .medium) ∧
    specLowestDisabledBelow ⟨false, false, true, false⟩
      (specHighestEnabled ⟨false, false, true, false⟩) = 1 ∧
    ElectrolyteLevel.medium.toNat ≠ 1 := by
  decide

/-! ## C4 — event decoding -/

/-- C4: decoding an events register (count word plus 32 code words):
a zero count yields `[]` whatever the trailing codes are; a positive
count `N` yields exactly `min N 32` entries, each being the table name of
the raw code; codes absent from the table decode to the UNKNOWN sentinel
instead of failing. -/
theorem c4_decode_events :
    ∀ (count : Nat) (rest : List Nat) (table : List (Nat × String)),
      rest.length = 32 →
      (count = 0 → decodeEventsList (count :: rest) table = []) ∧
      (0 < count →
        decodeEventsList (count :: rest) table =
          (rest.take count).map (fun event => formatEvent (eventName table event) event)) ∧
      (0 < count → (decodeEventsList (count :: rest) table).length = min count 32) ∧
      (∀ code, (∀ p ∈ table, p.1 ≠ code) → eventName table code = "UNKNOWN") := by
  intro count rest table hlen
  refine ⟨?_, ?_, ?_, ?_⟩
  · intro h0
    simp [decodeEventsList, h0]
  · intro hpos
    simp [decodeEventsList, Nat.pos_iff_ne_zero.mp hpos]
  · intro hpos
    simp [decodeEventsList, Nat.pos_iff_ne_zero.mp hpos, hlen]
  · intro code hmiss
    unfold eventName
    have : table.find? (fun p => p.1 = code) = Option.none := by
      rw [List.find?_eq_none]
      intro p hp
      simpa using hmiss p hp
    rw [this]

/-- C4 witness: with the real error table, a zero count ignores trailing
garbage, a count of 3 yields exactly three entries, and the raw code 9999
is not in the table and decodes to UNKNOWN. -/
theorem c4_decode_events_witness :
    decodeEventsList (0 :: ([0x1F81, 9999, 0x108A] ++ List.replicate 29 0)) elErrorTable = [] ∧
    (decodeEventsList (3 :: ([0x1F81, 9999, 0x108A] ++ List.replicate 29 0)) elErrorTable).length =
      min 3 32 ∧
    eventName elErrorTable 9999 = "UNKNOWN" :=
  ⟨(c4_decode_events 0 ([0x1F81, 9999, 0x108A] ++ List.replicate 29 0) elErrorTable
      (by decide)).1 rfl,
   (c4_decode_events 3 ([0x1F81, 9999, 0x108A] ++ List.replicate 29 0) elErrorTable
      (by decide)).2.2.1 (by decide),
   (c4_decode_events 3 ([0x1F81, 9999, 0x108A] ++ List.replicate 29 0) elErrorTable
      (by decide)).2.2.2 9999 (by decide)⟩

/-! ## C5 / C6 — the level wait loop -/

/-- Helper: if every poll reports a level that is neither the expected
one nor (while refilling) above it, the level wait loop runs to its
deadline and raises the timeout error, leaving the log untouched. -/
theorem waitLevelLoop_timeout (dev : Dev) (expected : ElectrolyteLevel)
    (timeout : Nat) (refilling : Bool)
    (hnever : ∀ k, ∃ l, electrolyteLevelOfSwitches (dev.switchReads k) = .ok l ∧
      l ≠ expected ∧ ¬(refilling ∧ expected.toNat < l.toNat)) :
    ∀ fuel untilT t s,
      untilT - t ≤ ELECTROLYTE_PRESENCE_CHECK_TIMEOUT * fuel → t = s.time →
      ∃ s', waitLevelLoop dev expected timeout refilling untilT fuel t s =
          .err (.levelTimeout expected timeout) s' ∧
        untilT ≤ s'.time ∧ s'.log = s.log := by
  intro fuel
  induction fuel with
  | zero =>
    intro untilT t s hle ht
    exact ⟨s, rfl, by omega, rfl⟩
  | succ n ih =>
    intro untilT t s hle ht
    by_cases hlt : t < untilT
    · obtain ⟨l, hl, hne, hnov⟩ := hnever s.swIdx
      obtain ⟨s', heq, hts, hlog⟩ := ih untilT (t + ELECTROLYTE_PRESENCE_CHECK_TIMEOUT)
        { s with swIdx := s.swIdx + 1, time := t + ELECTROLYTE_PRESENCE_CHECK_TIMEOUT }
        (by simp only [ELECTROLYTE_PRESENCE_CHECK_TIMEOUT] at hle ⊢; omega) rfl
      refine ⟨s', ?_, hts, hlog⟩
      rw [waitLevelLoop_succ]
      rw [if_pos hlt]
      simp only [electrolyteLevel, hl]
      rw [if_neg hne, if_neg hnov]
      exact heq
    · refine ⟨s, ?_, by omega, rfl⟩
      rw [waitLevelLoop_succ]
      rw [if_neg hlt]

/-- C6: when the sensor never reports the target level (and never
triggers the refilling overshoot branch), `_wait_electrolyte_level`
terminates once the wall-clock deadline elapses and raises the
`PhaseTimeout` `MaintenanceModeException` — the loop cannot run
past its deadline. -/
theorem c6_wait_level_phase_timeout (dev : Dev) (expected : ElectrolyteLevel)
    (timeout : Nat) (refilling : Bool) (s : MState)
    (hnever : ∀ k, ∃ l, electrolyteLevelOfSwitches (dev.switchReads k) = .ok l ∧
      l ≠ expected ∧ ¬(refilling ∧ expected.toNat < l.toNat)) :
    ∃ s', waitElectrolyteLevel dev expected timeout refilling s =
        .err (.levelTimeout expected timeout) s' ∧
      s.time + timeout ≤ s'.time ∧ s'.log = s.log :=
  waitLevelLoop_timeout dev expected timeout refilling hnever
    timeout (s.time + timeout) s.time s
    (by simp only [ELECTROLYTE_PRESENCE_CHECK_TIMEOUT]; omega) rfl

/-- C6 witness: target EMPTY, a 1-second timeout and a sensor that always
reports MEDIUM (outside an auto-fill, so the overshoot branch never
fires): the wait raises the PhaseTimeout error. -/
theorem c6_wait_level_phase_timeout_witness :
    ∃ s', waitElectrolyteLevel devC6 .empty 1 false initState =
        .err (.levelTimeout .empty 1) s' ∧
      initState.time + 1 ≤ s'.time ∧ s'.log = initState.log :=
  c6_wait_level_phase_timeout devC6 .empty 1 false initState
    (fun _ => ⟨.medium, rfl, by decide, by decide⟩)

/-- Helper: while refilling, with polls `0..n-1` strictly below the
target and poll `n` strictly above it, the level wait loop raises the
`highLevel` overshoot at poll `n`, with only `n` sleep intervals spent. -/
theorem waitLevelLoop_overshoot (dev : Dev) (expected ln : ElectrolyteLevel)
    (timeout : Nat) :
    ∀ (n fuel untilT t : Nat) (s : MState), t = s.time → n < fuel →
      t + ELECTROLYTE_PRESENCE_CHECK_TIMEOUT * n < untilT →
      (∀ j, j < n → ∃ l, electrolyteLevelOfSwitches (dev.switchReads (s.swIdx + j)) = .ok l ∧
        l.toNat < expected.toNat) →
      electrolyteLevelOfSwitches (dev.switchReads (s.swIdx + n)) = .ok ln →
      expected.toNat < ln.toNat →
      ∃ s', waitLevelLoop dev expected timeout true untilT fuel t s =
          .err (.highLevel expected ln) s' ∧
        s'.time = t + ELECTROLYTE_PRESENCE_CHECK_TIMEOUT * n ∧ s'.log = s.log := by
  intro n
  induction n with
  | zero =>
    intro fuel untilT t s ht hfuel hfit hprev hn hgt
    obtain ⟨f, rfl⟩ : ∃ f, fuel = f + 1 := ⟨fuel - 1, by omega⟩
    have hlt : t < untilT := by omega
    have hne : ln ≠ expected := by
      intro h
      rw [h] at hgt
      omega
    refine ⟨{ s with swIdx := s.swIdx + 1 }, ?_, by simp [ht], rfl⟩
    rw [waitLevelLoop_succ]
    rw [if_pos hlt]
    simp only [Nat.add_zero] at hn
    simp only [electrolyteLevel, hn]
    rw [if_neg hne]
    rw [if_pos (show True ∧ expected.toNat < ln.toNat from ⟨trivial, hgt⟩)]
  | succ n ih =>
    intro fuel untilT t s ht hfuel hfit hprev hn hgt
    obtain ⟨f, rfl⟩ : ∃ f, fuel = f + 1 := ⟨fuel - 1, by omega⟩
    have hlt : t < untilT := by
      simp only [ELECTROLYTE_PRESENCE_CHECK_TIMEOUT] at hfit
      omega
    obtain ⟨l0, hl0, hl0lt⟩ := hprev 0 (Nat.succ_pos n)
    simp only [Nat.add_zero] at hl0
    have hne0 : l0 ≠ expected := by
      intro h
      rw [h] at hl0lt
      omega
    obtain ⟨s', heq, hts, hlog⟩ := ih f untilT (t + ELECTROLYTE_PRESENCE_CHECK_TIMEOUT)
      { s with swIdx := s.swIdx + 1, time := t + ELECTROLYTE_PRESENCE_CHECK_TIMEOUT }
      rfl (by omega)
      (by simp only [ELECTROLYTE_PRESENCE_CHECK_TIMEOUT] at hfit ⊢; omega)
      (fun j hj => by
        have := hprev (j + 1) (by omega)
        simpa [Nat.add_assoc, Nat.add_comm 1 j] using this)
      (by simpa [Nat.add_assoc, Nat.add_comm 1 n] using hn)
      hgt
    refine ⟨s', ?_, by simp only [ELECTROLYTE_PRESENCE_CHECK_TIMEOUT] at hts ⊢; omega, hlog⟩
    rw [waitLevelLoop_succ]
    rw [if_pos hlt]
    simp only [electrolyteLevel, hl0]
    rw [if_neg hne0]
    rw [if_neg (show ¬(True ∧ expected.toNat < l0.toNat) from fun hc => absurd hc.2 (by omega))]
    exact heq

/-- C5: while refilling (`duringAutoFill`), as soon as a poll observes a
level strictly above the target — after `n` earlier polls strictly below
it — the wait raises the `LevelOvershoot`
(`HighElectrolyteLevelException`) immediately: only `n` sleep intervals
have elapsed, strictly less than the timeout budget. -/
theorem c5_wait_level_overshoot (dev : Dev) (expected ln : ElectrolyteLevel)
    (timeout : Nat) (n : Nat) (s : MState)
    (hfit : ELECTROLYTE_PRESENCE_CHECK_TIMEOUT * n < timeout)
    (hprev : ∀ j, j < n → ∃ l, electrolyteLevelOfSwitches (dev.switchReads (s.swIdx + j)) = .ok l ∧
      l.toNat < expected.toNat)
    (hn : electrolyteLevelOfSwitches (dev.switchReads (s.swIdx + n)) = .ok ln)
    (hgt : expected.toNat < ln.toNat) :
    ∃ s', waitElectrolyteLevel dev expected timeout true s =
        .err (.highLevel expected ln) s' ∧
      s'.time = s.time + ELECTROLYTE_PRESENCE_CHECK_TIMEOUT * n ∧
      s'.time < s.time + timeout ∧ s'.log = s.log := by
  obtain ⟨s', heq, hts, hlog⟩ := waitLevelLoop_overshoot dev expected ln timeout n
    timeout (s.time + timeout) s.time s rfl
    (by simp only [ELECTROLYTE_PRESENCE_CHECK_TIMEOUT] at hfit; omega)
    (by omega) hprev hn hgt
  exact ⟨s', heq, hts, by omega, hlog⟩

/-- C5 witness: `duringAutoFill = true`, target LOW, sensor sequence
EMPTY then MEDIUM: the overshoot fires as soon as MEDIUM is observed,
after one sleep interval of a 300-second budget. -/
theorem c5_wait_level_overshoot_witness :
    ∃ s', waitElectrolyteLevel devC5 .low REFILLING_TIMEOUT true initState =
        .err (.highLevel .low .medium) s' ∧
      s'.time = initState.time + ELECTROLYTE_PRESENCE_CHECK_TIMEOUT * 1 ∧
      s'.time < initState.time + REFILLING_TIMEOUT ∧ s'.log = initState.log :=
  c5_wait_level_overshoot devC5 .low .medium REFILLING_TIMEOUT 1 initState
    (by decide)
    (fun j hj => by
      have hj0 : j = 0 := by omega
      subst hj0
      exact ⟨.empty, rfl, by decide⟩)
    rfl (by decide)

/-! ## C3 — water-pipe connection check -/

/-- Unfolding `m >>= f` at a state. -/
theorem M_bind_apply (m : M α) (f : α → M β) (s : MState) :
    (m >>= f) s = match m s with
      | .ok a s1 => f a s1
      | .err e s1 => .err e s1 := rfl

/-- Unfolding `pure a` at a state. -/
theorem M_pure_apply (a : α) (s : MState) : (pure a : M α) s = .ok a s := rfl

/-- Helper: with no electrolyte check requested and every remaining
attempt's measured pressure outside the open bounds, the attempt loop
prompts the operator once per attempt and exhausts with `waterPipe`. -/
theorem pipeLoop_exhaust (dev : Dev) (minP maxP : Int) (attempts : Nat) :
    ∀ (remaining : Nat) (s : MState) (eOk : Bool),
      (∀ k, k < remaining →
        ¬(minP < dev.pressureReads (s.pIdx + k) ∧
          dev.pressureReads (s.pIdx + k) < maxP)) →
      ∃ s', pipeLoop dev false attempts minP maxP remaining false eOk s =
          .err (.waterPipe attempts) s' ∧
        s'.log = s.log ++ List.replicate remaining Act.prompt := by
  intro remaining
  induction remaining with
  | zero =>
    intro s eOk hout
    exact ⟨s, rfl, by simp⟩
  | succ n ih =>
    intro s eOk hout
    have hp0 : ¬(minP < dev.pressureReads s.pIdx ∧ dev.pressureReads s.pIdx < maxP) := by
      have := hout 0 (Nat.succ_pos n)
      simpa using this
    obtain ⟨s', heq, hlog⟩ := ih
      { s with pIdx := s.pIdx + 1, log := s.log ++ [Act.prompt] } true
      (fun k hk => by
        have := hout (k + 1) (by omega)
        simpa [Nat.add_assoc, Nat.add_comm 1 k] using this)
    refine ⟨s', ?_, ?_⟩
    · rw [pipeLoop_succ]
      simp only [M_bind_apply, M_pure_apply, actualWaterInletPressure,
        pipeAttemptElectrolyte, waitConfirmation, logAction]
      rw [if_neg hp0]
      simpa using heq
    · rw [hlog]
      simp [List.replicate_succ]

/-- C3 (amended): the water-pipe check runs up to the configured number
of attempts (5 by default).  An attempt's pressure check passes exactly
when the measured pressure lies **strictly** between the configured
bounds (the open interval `(min, max)`), and each of the two per-attempt
checks is sticky: once it has passed on an earlier attempt of the same
call it need not pass again.  When electrolyte is present a full
draining sub-phase runs inline before the retry; each failed attempt
requires an operator-confirmed retry prompt; exhausting all attempts
raises `WaterPipeFault` (`WaterPipeException`). -/
theorem c3_water_pipe_amended :
    MAX_WATER_PIPE_CONNECT_ATTEMPTS = 5 ∧
    (∀ (dev : Dev) (attempts : Nat) (s : MState),
      (∀ k, k < attempts →
        ¬(dev.minPressureReads s.minIdx < dev.pressureReads (s.pIdx + k) ∧
          dev.pressureReads (s.pIdx + k) < dev.maxPressureReads s.maxIdx)) →
      ∃ s', checkWaterPipeConnection dev false attempts s =
          .err (.waterPipe attempts) s' ∧
        s'.log = s.log ++ List.replicate attempts Act.prompt) ∧
    (∀ (dev : Dev) (attempts : Nat) (s : MState), 0 < attempts →
      dev.minPressureReads s.minIdx < dev.pressureReads s.pIdx →
      dev.pressureReads s.pIdx < dev.maxPressureReads s.maxIdx →
      ∃ s', checkWaterPipeConnection dev false attempts s = .ok () s' ∧
        s'.log = s.log) ∧
    ((checkWaterPipeConnection devC3sticky true 5 initState).errOf = Option.none ∧
      (checkWaterPipeConnection devC3sticky true 5 initState).state.log =
        [Act.banner Phase.draining, Act.prompt, Act.prompt] ∧
      ¬(devC3sticky.minPressureReads 0 < devC3sticky.pressureReads 1 ∧
        devC3sticky.pressureReads 1 < devC3sticky.maxPressureReads 0)) := by
  refine ⟨rfl, ?_, ?_, rfl, rfl, by decide⟩
  · intro dev attempts s hout
    obtain ⟨s', heq, hlog⟩ := pipeLoop_exhaust dev
      (dev.minPressureReads s.minIdx) (dev.maxPressureReads s.maxIdx) attempts
      attempts { s with minIdx := s.minIdx + 1, maxIdx := s.maxIdx + 1 } false
      (fun k hk => by simpa using hout k hk)
    refine ⟨s', ?_, hlog⟩
    unfold checkWaterPipeConnection
    simp only [M_bind_apply, actualRefillingMinWaterPressure,
      actualRefillingMaxWaterPressure]
    exact heq
  · intro dev attempts s hpos hmin hmax
    obtain ⟨r, rfl⟩ : ∃ r, attempts = r + 1 := ⟨attempts - 1, by omega⟩
    refine ⟨{ s with pIdx := s.pIdx + 1, minIdx := s.minIdx + 1, maxIdx := s.maxIdx + 1 },
      ?_, rfl⟩
    simp [checkWaterPipeConnection, pipeLoop_succ, M_bind_apply, M_pure_apply,
      actualRefillingMinWaterPressure, actualRefillingMaxWaterPressure,
      actualWaterInletPressure, pipeAttemptElectrolyte, hmin, hmax]

/-- C3 counterexample: with the measured pressure exactly equal to the
configured minimum (2 within the claimed half-open interval `[2, 5)`),
every attempt's pressure check fails and the call exhausts with
`WaterPipeFault` — so an in-`[min, max)` pressure does **not** make an
attempt succeed, contrary to the claim. -/
theorem c3_water_pipe_counterexample :
    (checkWaterPipeConnection devC3ctr false 5 initState).errOf =
      some (.waterPipe 5) ∧
    devC3ctr.minPressureReads 0 ≤ devC3ctr.pressureReads 0 ∧
    devC3ctr.pressureReads 0 < devC3ctr.maxPressureReads 0 :=
  ⟨rfl, by decide, by decide⟩

/-- C3 witness: the amended theorem applied to a device whose pressure is
always out of bounds (exhaustion with 5 retry prompts) and to the quiet
device (first-attempt success, no prompt). -/
theorem c3_water_pipe_amended_witness :
    (∃ s', checkWaterPipeConnection devC3ctr false 5 initState =
        .err (.waterPipe 5) s' ∧
      s'.log = initState.log ++ List.replicate 5 Act.prompt) ∧
    (∃ s', checkWaterPipeConnection baseDev false 5 initState = .ok () s' ∧
      s'.log = initState.log) :=
  ⟨c3_water_pipe_amended.2.1 devC3ctr 5 initState
      (fun k hk hc => absurd hc.1 (lt_irrefl (2 : Int))),
   c3_water_pipe_amended.2.2.1 baseDev 5 initState (by decide) (by decide)
      (by decide)⟩

/-! ## C9 — pre-flight safety gate -/

/-- C9: whenever the pre-flight gate fails — the first level read is
already VERY_HIGH, or the operating state is neither IDLE nor
MAINTENANCE_MODE — `main` terminates with a clean `sys.exit` outcome
(`cleanExit`, not `failed`), and the final session state differs from the
initial one only in read counters: in particular its action log is the
initial log, so not a single register write happened in the whole run. -/
theorem c9_preflight_gate :
    ∀ (dev : Dev) (s : MState),
      (electrolyteLevelOfSwitches (dev.switchReads s.swIdx) = .ok .veryHigh →
        mainBody dev s = .ok (.cleanExit .veryHighLevel)
          { s with swIdx := s.swIdx + 1 } ∧
        (mainBody dev s).state.log = s.log) ∧
      (∀ lvl st, electrolyteLevelOfSwitches (dev.switchReads s.swIdx) = .ok lvl →
        lvl ≠ .veryHigh →
        OpState.ofValue (dev.stateReads s.stIdx) = st →
        st ≠ .idle → st ≠ .maintenanceMode →
        mainBody dev s = .ok (.cleanExit (.wrongState st))
          { s with swIdx := s.swIdx + 1, stIdx := s.stIdx + 1 } ∧
        (mainBody dev s).state.log = s.log) := by
  intro dev s
  constructor
  · intro hvh
    have hmain : mainBody dev s = .ok (.cleanExit .veryHighLevel)
        { s with swIdx := s.swIdx + 1 } := by
      unfold mainBody mainTry
      simp [electrolyteLevel, hvh]
    exact ⟨hmain, by rw [hmain]; rfl⟩
  · intro lvl st hlvl hne hst h1 h2
    have hmain : mainBody dev s = .ok (.cleanExit (.wrongState st))
        { s with swIdx := s.swIdx + 1, stIdx := s.stIdx + 1 } := by
      unfold mainBody mainTry
      simp only [electrolyteLevel, hlvl]
      rw [if_neg hne]
      simp only [actualState, hst]
      rw [if_pos ⟨h1, h2⟩]
    exact ⟨hmain, by rw [hmain]; rfl⟩

/-- C9 witness: a device reporting VERY_HIGH exits cleanly with no write,
and a device in STEADY state exits cleanly with no write. -/
theorem c9_preflight_gate_witness :
    (mainBody devC9very initState = .ok (.cleanExit .veryHighLevel)
        { initState with swIdx := initState.swIdx + 1 } ∧
      (mainBody devC9very initState).state.log = initState.log) ∧
    (mainBody devC9steady initState = .ok (.cleanExit (.wrongState .steady))
        { initState with swIdx := initState.swIdx + 1,
                         stIdx := initState.stIdx + 1 } ∧
      (mainBody devC9steady initState).state.log = initState.log) :=
  ⟨(c9_preflight_gate devC9very initState).1 rfl,
   (c9_preflight_gate devC9steady initState).2 .empty .steady rfl
     (by decide) rfl (by decide) (by decide)⟩

/-! ## C2 — error propagation policy -/

/-- C2 (amended): during refilling, a `LevelOvershoot`
(`HighElectrolyteLevelException`) is caught and handled locally by the
phase controller — both fill stages of `_perform_refilling` branch into
`_handle_very_high_electrolyte_level`, which redirects EL21 operators to
a manual drain-to-HIGH checkpoint and upgrades the fault to fatal for
other families — while a non-overshoot error from the same wait
propagates.  Additionally, in the EL4x run the final single-attempt
water-pipe verification catches its own `WaterPipeFault` locally,
downgrading it to a console warning and skipping finish-refilling, while
any non-WaterPipe error there still propagates.  Every error that leaves
the phase sequence reaches the Maintenance Session, which appends the
live decoded error and warning diagnostics before re-raising — as the
devC2prop run shows for the flushing-phase `WaterPipeFault`, which is
fatal once its 5-attempt budget is exhausted.  The devC2high run
exercises the overshoot catch end to end: the wait for LOW raises the
overshoot at its reached state, yet the run completes. -/
theorem c2_propagation_amended :
    (∀ (body handler : M Unit) (s s1 : MState) (e : MErr),
      body s = .err e s1 → e.isHighLevel = true →
      tryCatchHighLevel body handler s = handler s1) ∧
    (∀ (body handler : M Unit) (s s1 : MState) (e : MErr),
      body s = .err e s1 → e.isHighLevel = false →
      tryCatchHighLevel body handler s = .err e s1) ∧
    (∀ (dev : Dev) (el21 : Bool) (s s1 s2 s3 : MState) (e : MErr),
      waitElectrolyteLevel dev .low REFILLING_TIMEOUT true s = .err e s1 →
      e.isHighLevel = true →
      handleVeryHighElectrolyteLevel dev el21 s1 = .ok () s2 →
      refillFinallyClause dev el21 s2 = .ok () s3 →
      refillFirstStage dev el21 s = .ok () s3) ∧
    (∀ (dev : Dev) (el21 : Bool) (s s1 s3 : MState) (e : MErr),
      waitElectrolyteLevel dev .low REFILLING_TIMEOUT true s = .err e s1 →
      e.isHighLevel = false →
      refillFinallyClause dev el21 s1 = .ok () s3 →
      refillFirstStage dev el21 s = .err e s3) ∧
    (∀ (dev : Dev) (s : MState),
      electrolyteLevelOfSwitches (dev.switchReads s.swIdx) = .ok .veryHigh →
      handleVeryHighElectrolyteLevel dev false s =
        .err .contactSupport { s with swIdx := s.swIdx + 1 }) ∧
    (∀ (dev : Dev) (s : MState),
      electrolyteLevelOfSwitches (dev.switchReads s.swIdx) = .ok .veryHigh →
      handleVeryHighElectrolyteLevel dev true s =
        waitElectrolyteLevel dev .high REFILLING_TIMEOUT false
          { s with swIdx := s.swIdx + 1, log := s.log ++ [Act.prompt] }) ∧
    (∀ (dev : Dev) (s s1 : MState) (e : MErr),
      checkWaterPipeConnection dev false 1 s = .err e s1 → e.isWaterPipe = true →
      finalPipeStage dev s = .ok () s1) ∧
    (∀ (dev : Dev) (s s1 : MState) (e : MErr),
      checkWaterPipeConnection dev false 1 s = .err e s1 → e.isWaterPipe = false →
      finalPipeStage dev s = .err e s1) ∧
    (∀ (dev : Dev) (s s1 : MState) (e : MErr),
      mainTry dev s = .err e s1 →
      mainBody dev s = .ok (.failed e
          (joinedEvents (decodeEventsList (dev.errorsReads s1.eIdx) elErrorTable)
            "No errors")
          (joinedEvents (decodeEventsList (dev.warningsReads s1.wIdx) elWarningTable)
            "No warnings"))
        { s1 with eIdx := s1.eIdx + 1, wIdx := s1.wIdx + 1 }) ∧
    (mainBody devC2prop initState).okValue =
      some (.failed (.waterPipe 5) "FP_01 (0x1f81)" "No warnings") ∧
    ((runMaintenance4x devC2high .maintenanceMode initState).errOf = Option.none ∧
      waitElectrolyteLevel devC2high .low REFILLING_TIMEOUT true sC2high =
        .err (.highLevel .low .medium) sC2highE ∧
      MErr.isHighLevel (.highLevel .low .medium) = true) := by
  refine ⟨?_, ?_, ?_, ?_, ?_, ?_, ?_, ?_, ?_, rfl, rfl, rfl, rfl⟩
  · intro body handler s s1 e hbody hh
    unfold tryCatchHighLevel
    rw [hbody]
    simp [hh]
  · intro body handler s s1 e hbody hh
    unfold tryCatchHighLevel
    rw [hbody]
    simp [hh]
  · intro dev el21 s s1 s2 s3 e hw hh hhandle hfin
    unfold refillFirstStage
    simp only [hw, hh, if_true, hhandle, MRes.state, hfin]
  · intro dev el21 s s1 s3 e hw hh hfin
    unfold refillFirstStage
    simp only [hw, hh, Bool.false_eq_true, if_false, MRes.state, hfin]
  · intro dev s hvh
    unfold handleVeryHighElectrolyteLevel
    simp [M_bind_apply, electrolyteLevel, hvh, throwM]
  · intro dev s hvh
    unfold handleVeryHighElectrolyteLevel
    simp [M_bind_apply, electrolyteLevel, hvh, waitConfirmation, logAction]
  · intro dev s s1 e hchk hwp
    unfold finalPipeStage
    rw [hchk]
    simp [hwp]
  · intro dev s s1 e hchk hwp
    unfold finalPipeStage
    rw [hchk]
    simp [hwp]
  · intro dev s s1 e htry
    unfold mainBody
    rw [htry]
    simp [decodeErrors, decodeWarnings]

/-- C2 counterexample: the devC2 run completes normally even though its
final single-attempt water-pipe check raises a `WaterPipeFault`
(`WaterPipeException`, not a `LevelOvershoot`) at the state the run
reaches after maintenance off — the fault is caught and handled locally
instead of propagating to the Maintenance Session. -/
theorem c2_propagation_counterexample :
    (mainBody devC2 initState).okValue = some .completed ∧
    checkWaterPipeConnection devC2 false 1 sC2mid = .err (.waterPipe 1) sC2after ∧
    MErr.isWaterPipe (.waterPipe 1) = true ∧
    MErr.isHighLevel (.waterPipe 1) = false :=
  ⟨rfl, rfl, rfl, rfl⟩

/-- C2 witness: the amended theorem's clauses at concrete inputs — the
top-off `except` clause catching the devC2high overshoot, the same
clause propagating the devC2bad hardware fault, the first fill stage
handling the devC2high overshoot and propagating the devC2bad fault,
the very-high handler's fatal (non-EL21) and manual-checkpoint (EL21)
behaviours on devC2vh, the final pipe stage swallowing the devC2 pipe
fault, and the diagnostics clause on the devC2prop run. -/
theorem c2_propagation_amended_witness :
    tryCatchHighLevel (waitElectrolyteLevel devC2high .low REFILLING_TIMEOUT true)
        (handleVeryHighElectrolyteLevel devC2high false) sC2high =
      handleVeryHighElectrolyteLevel devC2high false sC2highE ∧
    tryCatchHighLevel (waitElectrolyteLevel devC2bad .low REFILLING_TIMEOUT true)
        (handleVeryHighElectrolyteLevel devC2bad false) initState =
      .err (.hardwareInconsistency .high .medium)
        { initState with swIdx := initState.swIdx + 1 } ∧
    refillFirstStage devC2high false sC2high = .ok () sC2highH ∧
    refillFirstStage devC2bad false initState =
      .err (.hardwareInconsistency .high .medium)
        { initState with swIdx := initState.swIdx + 1 } ∧
    handleVeryHighElectrolyteLevel devC2vh false initState =
      .err .contactSupport { initState with swIdx := initState.swIdx + 1 } ∧
    handleVeryHighElectrolyteLevel devC2vh true initState =
      waitElectrolyteLevel devC2vh .high REFILLING_TIMEOUT false
        { initState with swIdx := initState.swIdx + 1,
                         log := initState.log ++ [Act.prompt] } ∧
    finalPipeStage devC2 sC2mid = .ok () sC2after ∧
    mainBody devC2prop initState = .ok (.failed (.waterPipe 5)
        (joinedEvents (decodeEventsList (devC2prop.errorsReads 0) elErrorTable)
          "No errors")
        (joinedEvents (decodeEventsList (devC2prop.warningsReads 0) elWarningTable)
          "No warnings"))
      { time := 2, swIdx := 7, stIdx := 2, rIdx := 4, pIdx := 5, minIdx := 1,
        maxIdx := 1, mixIdx := 0, wIdx := 1, eIdx := 1,
        log := [Act.write 1013 1, Act.banner Phase.draining, Act.prompt,
                Act.banner Phase.flushing, Act.prompt, Act.prompt, Act.prompt,
                Act.prompt, Act.prompt, Act.prompt] } :=
  ⟨c2_propagation_amended.1 (waitElectrolyteLevel devC2high .low REFILLING_TIMEOUT true)
     (handleVeryHighElectrolyteLevel devC2high false) sC2high sC2highE
     (.highLevel .low .medium) rfl rfl,
   c2_propagation_amended.2.1 (waitElectrolyteLevel devC2bad .low REFILLING_TIMEOUT true)
     (handleVeryHighElectrolyteLevel devC2bad false) initState
     { initState with swIdx := initState.swIdx + 1 }
     (.hardwareInconsistency .high .medium) rfl rfl,
   c2_propagation_amended.2.2.1 devC2high false sC2high sC2highE sC2highH sC2highH
     (.highLevel .low .medium) rfl rfl rfl rfl,
   c2_propagation_amended.2.2.2.1 devC2bad false initState
     { initState with swIdx := initState.swIdx + 1 }
     { initState with swIdx := initState.swIdx + 1 }
     (.hardwareInconsistency .high .medium) rfl rfl rfl,
   c2_propagation_amended.2.2.2.2.1 devC2vh initState rfl,
   c2_propagation_amended.2.2.2.2.2.1 devC2vh initState rfl,
   c2_propagation_amended.2.2.2.2.2.2.1 devC2 sC2mid sC2after (.waterPipe 1) rfl rfl,
   c2_propagation_amended.2.2.2.2.2.2.2.2.1 devC2prop initState
     { time := 2, swIdx := 7, stIdx := 2, rIdx := 4, pIdx := 5, minIdx := 1,
       maxIdx := 1, mixIdx := 0, wIdx := 0, eIdx := 0,
       log := [Act.write 1013 1, Act.banner Phase.draining, Act.prompt,
               Act.banner Phase.flushing, Act.prompt, Act.prompt, Act.prompt,
               Act.prompt, Act.prompt, Act.prompt] }
     (.waterPipe 5) rfl⟩

/-! ## C7 — EL40 end-to-end run with initial refilling state DRAINING -/

/-- C7 (amended): in the EL40 end-to-end run with initial refilling
state DRAINING (devC7), the draining, flushing and refilling phases all
execute in that order — unless the fresh refilling-state read taken
after draining reports MAINTENANCE, in which case flushing is skipped
(see the counterexample) — and the flushing phase's post-mixing wait for
DRAINING uses a timeout of exactly twice the device-reported mixing time
in whole seconds (`ms / 1000 * 2`), as the stalled run's timeout error
payload shows. -/
theorem c7_el40_phases_amended :
    (runMaintenance4x devC7 .idle initState).errOf = Option.none ∧
    (runMaintenance4x devC7 .idle initState).state.log = c7log ∧
    RefState.ofValue (devC7.refillingReads 0) = .draining ∧
    c7log.indexOf (Act.banner Phase.draining) <
      c7log.indexOf (Act.banner Phase.flushing) ∧
    c7log.indexOf (Act.banner Phase.flushing) <
      c7log.indexOf (Act.banner Phase.refilling) ∧
    (runMaintenance4x devC7stall .idle initState).errOf =
      some (.refillingStateTimeout .draining
        (devC7stall.mixingMsReads 0 / 1000 * 2)) ∧
    devC7stall.mixingMsReads 0 / 1000 * 2 = 40 :=
  ⟨rfl, rfl, rfl, by decide, by decide, rfl, rfl⟩

/-- C7 counterexample: a completed EL40 run whose initial refilling state
is DRAINING but in which the flushing phase never executes — the
post-draining re-read reports MAINTENANCE, so the run goes straight from
draining to refilling (no flushing banner, no write to the flushing
register 1015) — refuting the claim that every such run executes the
flushing phase. -/
theorem c7_el40_phases_counterexample :
    RefState.ofValue (devC7skip.refillingReads 0) = .draining ∧
    (runMaintenance4x devC7skip .idle initState).errOf = Option.none ∧
    (runMaintenance4x devC7skip .idle initState).state.log = c7skipLog ∧
    Act.banner Phase.flushing ∉ c7skipLog ∧
    Act.write 1015 0 ∉ c7skipLog ∧
    Act.write 1015 1 ∉ c7skipLog :=
  ⟨rfl, rfl, rfl, by decide, by decide, by decide⟩

/-! ## C8 — EL21 first-time fill -/

/-- C8: the EL21 run starting IDLE with refilling state MAINTENANCE
(first fill, devC8) skips the draining phase (no draining banner),
proceeds directly to refilling, targets level HIGH (the stalled variant
times out waiting for HIGH), asserts KOH_REFILLING_FINISH at the end of
refilling (the devC8wrong variant fails that assertion), then turns
maintenance off (the write of 0 to register 1013) and asserts operating
state IDLE (devC8badState fails it) and refilling state IDLE
(devC8badIdle fails it). -/
theorem c8_el21_first_fill :
    (runMaintenance21 devC8 .idle initState).errOf = Option.none ∧
    (runMaintenance21 devC8 .idle initState).state.log = c8log ∧
    RefState.ofValue (devC8.refillingReads 0) = .maintenance ∧
    Act.banner Phase.draining ∉ c8log ∧
    Act.banner Phase.refilling ∈ c8log ∧
    Act.write 1013 0 ∈ c8log ∧
    (runMaintenance21 devC8stall .idle initState).errOf =
      some (.levelTimeout .high REFILLING_TIMEOUT) ∧
    (runMaintenance21 devC8wrong .idle initState).errOf =
      some (.wrongRefillingState .kohRefillingFinish .kohRefilling) ∧
    (runMaintenance21 devC8badState .idle initState).errOf =
      some (.stateMismatch .idle .steady) ∧
    (runMaintenance21 devC8badIdle .idle initState).errOf =
      some (.wrongRefillingState .idle .maintenance) :=
  ⟨rfl, rfl, rfl, by decide, by decide, by decide, rfl, rfl, rfl, rfl⟩

/-! ## C10 — flushing cancelled by the post-draining re-read -/

/-- C10: in any EL4x run that required flushing — initial refilling
state DRAINING (drain first) or WAIT_FLUSHING (no draining) — when the
fresh refilling-state read taken after the draining decision reports
MAINTENANCE, the entire flushing phase is skipped: the run continues
directly with refilling, the operator checkpoint, maintenance off and
the final pipe stage — no WAIT_FLUSHING assertion, water-pipe check or
flushing write of the flushing phase happens, as the devC10 (DRAINING
arm) and devC10wf (WAIT_FLUSHING arm) runs' complete action logs confirm
(no flushing banner, no write to register 1015, and the refilling phase
follows directly). -/
theorem c10_flushing_skipped :
    (∀ (dev : Dev) (st : OpState) (s sA sB sC sD : MState),
      maintenanceOn dev st s = .ok () sA →
      actualRefillingState dev sA = .ok .draining sB →
      performDraining dev sB = .ok () sC →
      actualRefillingState dev sC = .ok .maintenance sD →
      runMaintenance4x dev st s =
        (do
          performRefilling dev false
          waitConfirmation
          maintenanceOff dev
          finalPipeStage dev) sD) ∧
    (∀ (dev : Dev) (st : OpState) (s sA sB sD : MState),
      maintenanceOn dev st s = .ok () sA →
      actualRefillingState dev sA = .ok .waitFlushing sB →
      actualRefillingState dev sB = .ok .maintenance sD →
      runMaintenance4x dev st s =
        (do
          performRefilling dev false
          waitConfirmation
          maintenanceOff dev
          finalPipeStage dev) sD) ∧
    ((runMaintenance4x devC10 .idle initState).errOf = Option.none ∧
      (runMaintenance4x devC10 .idle initState).state.log = c10log ∧
      Act.banner Phase.flushing ∉ c10log ∧
      Act.write 1015 0 ∉ c10log ∧
      Act.write 1015 1 ∉ c10log) ∧
    ((runMaintenance4x devC10wf .idle initState).errOf = Option.none ∧
      (runMaintenance4x devC10wf .idle initState).state.log = c10wfLog ∧
      RefState.ofValue (devC10wf.refillingReads 0) = .waitFlushing ∧
      Act.banner Phase.flushing ∉ c10wfLog ∧
      Act.write 1015 0 ∉ c10wfLog ∧
      Act.write 1015 1 ∉ c10wfLog) := by
  refine ⟨?_, ?_, ⟨rfl, rfl, by decide, by decide, by decide⟩,
    ⟨rfl, rfl, rfl, by decide, by decide, by decide⟩⟩
  · intro dev st s sA sB sC sD h1 h2 h3 h4
    unfold runMaintenance4x
    simp only [M_bind_apply, M_pure_apply, h1, h2, h3, h4]
    rw [if_pos trivial]
    simp only [M_bind_apply, M_pure_apply, h3, h4]
    rfl
  · intro dev st s sA sB sD h1 h2 h3
    unfold runMaintenance4x
    simp only [M_bind_apply, M_pure_apply, h1, h2, h3]
    rw [if_neg (by simp)]
    simp only [M_bind_apply, M_pure_apply, h3]
    rfl

/-- C10 witness: the skip equation instantiated on both arms — the
devC10 run (initial DRAINING, drain completed, re-read MAINTENANCE) and
the devC10wf run (initial WAIT_FLUSHING, re-read MAINTENANCE) — every
hypothesis discharged by evaluation. -/
theorem c10_flushing_skipped_witness :
    runMaintenance4x devC10 .idle initState =
      (do
        performRefilling devC10 false
        waitConfirmation
        maintenanceOff devC10
        finalPipeStage devC10) sC10d ∧
    runMaintenance4x devC10wf .idle initState =
      (do
        performRefilling devC10wf false
        waitConfirmation
        maintenanceOff devC10wf
        finalPipeStage devC10wf) sC10wfD :=
  ⟨c10_flushing_skipped.1 devC10 .idle initState sC10a sC10b sC10c sC10d
     rfl rfl rfl rfl,
   c10_flushing_skipped.2.1 devC10wf .idle initState sC10wfA sC10wfB sC10wfD
     rfl rfl rfl⟩
